import Mathlib

/-!
# Verification of the holopy scattering-theory orchestration

This file shallowly embeds the parts of the repository that the claims
touch:

* `holopy/scattering/theory/tmatrix.py` — class `Tmatrix`
  (`_raw_scat_matrs`, input-file encoding, output parsing, temp-dir
  lifecycle);
* `scatterpy/theory/dda.py` — class `DDA` (`__init__` dependency check,
  `calc_holo` up to scattering-matrix assembly and temp-dir lifecycle).

Scalars are embedded as rationals.  The Python code computes with
`np.pi`, which is one fixed floating-point constant; it is embedded as
an explicit rational parameter `pi` threaded through the functions, so
the theorems hold for every value of that constant.  Python's real
power `base ** exp` (used only for cube roots written into the solver
input file) is kept symbolic via the constructor `InpVal.pow`, since a
cube root of a rational is irrational in general; the written line is
represented exactly as "the `exp` power of `base`".

Filesystem and subprocess effects (temp-dir creation, `shutil.copy`,
`os.chdir`, file open/close, `subprocess.check_call`, `glob`,
`shutil.rmtree`, `print`) are recorded as an explicit event trace.
External solver behaviour (whether the executable is present, its exit
status, the produced output file) is an explicit environment record.
-/

/-- Complex number with rational components, standing for the Python
complex values manipulated by the scattering code. -/
structure CxQ where
  re : ℚ
  im : ℚ
  deriving DecidableEq, Repr

instance : Add CxQ := ⟨fun a b => ⟨a.re + b.re, a.im + b.im⟩⟩

instance : Neg CxQ := ⟨fun a => ⟨-a.re, -a.im⟩⟩

instance : Mul CxQ := ⟨fun a b => ⟨a.re * b.re - a.im * b.im, a.re * b.im + a.im * b.re⟩⟩

theorem CxQ.mul_def (a b : CxQ) :
    a * b = ⟨a.re * b.re - a.im * b.im, a.re * b.im + a.im * b.re⟩ := rfl

theorem CxQ.neg_def (a : CxQ) : -a = ⟨-a.re, -a.im⟩ := rfl

/-- One observation point `(kr, theta, phi)`; a row of the `pos` array
handed to `Tmatrix._raw_scat_matrs` (see `_raw_fields`, which unpacks
each row as `kr, theta, phi = point`). -/
structure Point where
  kr : ℚ
  theta : ℚ
  phi : ℚ
  deriving DecidableEq, Repr

/-- The scatterer variants distinguished by `Tmatrix._raw_scat_matrs`:
`Sphere` (radius `r`, index `n`), `Axisymmetric` (radii `r[0]`, `r[1]`,
index `n`, rotation angles `rotation[0]`, `rotation[1]`, integer shape
tag `shape`), and a catch-all for every other scatterer class, which
the `isinstance` chain sends to the error branch. -/
inductive Scatterer
  | sphere (r : ℚ) (n : CxQ)
  | axisymmetric (r0 r1 : ℚ) (n : CxQ) (rot0 rot1 : ℚ) (shape : ℤ)
  | other
  deriving DecidableEq, Repr

/-- One value written into the solver input file `tmatrix_tmp.inp`:
either a plain number on its own line, `base ** exp` (Python real
power, kept symbolic), or one whitespace-separated angle row written by
`np.savetxt`. -/
inductive InpVal
  | num (q : ℚ)
  | pow (base exp : ℚ)
  | pair (a b : ℚ)
  deriving DecidableEq, Repr

/-- Filesystem / subprocess effects performed by the Python code, in
program order. -/
inductive FsEvent
  | mkdtemp
  | copyExe
  | chdirTemp
  | openInp
  | closeInp
  | runSolver
  | globOut
  | loadResult
  | chdirBack
  | rmtree
  | printTempDir
  | checkAddaVersion
  deriving DecidableEq, Repr

/-- The Python exceptions the embedded code can raise.  Note the
repository defines no `ResultNotFoundError` and no
`ResultShapeMismatch`; the raw exceptions below are what actually
escape. -/
inductive PyErr
  | theoryNotCompatible
  | calledProcessError
  | indexError
  | fileNotFound
  | dependencyMissing (dep : String)
  deriving DecidableEq, Repr

/-- A per-point 2×2 complex scattering matrix; `a12` is the entry in
row 1, column 2 (i.e. `m[0][1]` in numpy indexing). -/
structure Mat2 where
  a11 : CxQ
  a12 : CxQ
  a21 : CxQ
  a22 : CxQ
  deriving DecidableEq, Repr

/-- The angle row written for a point: `pos[:, 1:] * 180/np.pi`, i.e.
`(theta, phi)` converted to degrees (tmatrix.py line 81). -/
def angleLine (pi : ℚ) (p : Point) : InpVal :=
  InpVal.pair (p.theta * 180 / pi) (p.phi * 180 / pi)

/-- The sequence of values written into `tmatrix_tmp.inp` by
`Tmatrix._raw_scat_matrs` (tmatrix.py lines 81–119), or `none` when the
scatterer is neither a `Sphere` nor an `Axisymmetric` (the branch that
raises `TheoryNotCompatibleError`).  Mirrors the source line by line:
the Sphere branch writes radius, medium wavelength (`2π/k`), real and
imaginary relative index, aspect ratio 1, rotations 0 and 0, shape −1,
point count; the Axisymmetric branch guards the equivalent-radius line
with two independent `if scatterer.shape == -1` / `== -2` tests and
writes nothing for any other tag, then wavelength, relative index,
aspect ratio `r0/r1`, rotations (index 1 then index 0, in degrees),
the shape tag itself, and the point count.  Both branches end with the
angle table in degrees. -/
def tmatInputLines (sc : Scatterer) (pos : List Point) (k nmed pi : ℚ) :
    Option (List InpVal) :=
  let medWavelen := 2 * pi / k
  let angles := pos.map (angleLine pi)
  match sc with
  | Scatterer.sphere r n =>
      some ([InpVal.num r, InpVal.num medWavelen,
             InpVal.num (n.re / nmed), InpVal.num (n.im / nmed),
             InpVal.num 1, InpVal.num 0, InpVal.num 0,
             InpVal.num (-1), InpVal.num (pos.length : ℚ)] ++ angles)
  | Scatterer.axisymmetric r0 r1 n rot0 rot1 shape =>
      some (((if shape = -1 then [InpVal.pow (r1 * r0 ^ 2) (1 / 3)] else []) ++
             (if shape = -2 then [InpVal.pow (3 / 2 * r1 * r0 ^ 2) (1 / 3)] else [])) ++
            [InpVal.num medWavelen,
             InpVal.num (n.re / nmed), InpVal.num (n.im / nmed),
             InpVal.num (r0 / r1),
             InpVal.num (rot1 * 180 / pi), InpVal.num (rot0 * 180 / pi),
             InpVal.num (shape : ℚ), InpVal.num (pos.length : ℚ)] ++ angles)
  | Scatterer.other => none

/-- C3: for an Axisymmetric scatterer with shape tag −1 the first input
line is the equivalent radius `(r1*r0^2)^(1/3)`; with shape tag −2 it
is `(3/2*r1*r0^2)^(1/3)`; in both cases the aspect-ratio line written
equals `r0/r1` (it is the fifth line, after the radius, wavelength and
the two relative-index lines). -/
theorem tmat_axisym_radius_and_aspect (r0 r1 : ℚ) (n : CxQ) (rot0 rot1 : ℚ)
    (pos : List Point) (k nmed pi : ℚ) :
    tmatInputLines (Scatterer.axisymmetric r0 r1 n rot0 rot1 (-1)) pos k nmed pi =
      some ([InpVal.pow (r1 * r0 ^ 2) (1 / 3), InpVal.num (2 * pi / k),
             InpVal.num (n.re / nmed), InpVal.num (n.im / nmed),
             InpVal.num (r0 / r1),
             InpVal.num (rot1 * 180 / pi), InpVal.num (rot0 * 180 / pi),
             InpVal.num ((-1 : ℤ) : ℚ), InpVal.num (pos.length : ℚ)] ++
            pos.map (angleLine pi)) ∧
    tmatInputLines (Scatterer.axisymmetric r0 r1 n rot0 rot1 (-2)) pos k nmed pi =
      some ([InpVal.pow (3 / 2 * r1 * r0 ^ 2) (1 / 3), InpVal.num (2 * pi / k),
             InpVal.num (n.re / nmed), InpVal.num (n.im / nmed),
             InpVal.num (r0 / r1),
             InpVal.num (rot1 * 180 / pi), InpVal.num (rot0 * 180 / pi),
             InpVal.num ((-2 : ℤ) : ℚ), InpVal.num (pos.length : ℚ)] ++
            pos.map (angleLine pi)) := by
  constructor <;> rfl

/-- C4: for a Sphere the input payload is, in order: radius, medium
wavelength `2π/k`, real and imaginary refractive index each divided by
the medium index, an aspect-ratio line that is exactly 1, two rotation
lines that are exactly 0 and 0, a shape-code line that is exactly −1,
the sampling point count, then the angle table in degrees. -/
theorem tmat_sphere_payload (r : ℚ) (n : CxQ) (pos : List Point) (k nmed pi : ℚ) :
    tmatInputLines (Scatterer.sphere r n) pos k nmed pi =
      some ([InpVal.num r, InpVal.num (2 * pi / k),
             InpVal.num (n.re / nmed), InpVal.num (n.im / nmed),
             InpVal.num 1, InpVal.num 0, InpVal.num 0,
             InpVal.num (-1), InpVal.num (pos.length : ℚ)] ++
            pos.map (angleLine pi)) := rfl

/-- Combine alternating real/imaginary columns into complex values:
the numpy expression `arr[:, j::2] + 1.0j*arr[:, (j+1)::2]` applied to
one row (tmatrix.py line 137 with `j = 0`, dda.py line 142 with
`j = 2` after dropping the two angle columns). -/
def combineRI : List ℚ → List CxQ
  | re :: im :: rest => CxQ.mk re im :: combineRI rest
  | _ => []

/-- Per-point block of `np.array([[A, B], [C, D]]).transpose()` for
length-N vectors `A B C D`.  The stacked array `M` has shape (2,2,N)
with `M[0,0]=A`, `M[0,1]=B`, `M[1,0]=C`, `M[1,1]=D`; `transpose()` with
no axes reverses all three axes, so the result `T` has shape (N,2,2)
and `T[i,j,k] = M[k,j,i]`.  Hence the i-th 2×2 block is
`[[M[0,0,i], M[1,0,i]], [[M[0,1,i], M[1,1,i]]] = [[A[i], C[i]], [B[i], D[i]]]`
— the transpose of `[[A[i], B[i]], [C[i], D[i]]]`.  This function
returns that i-th block given the i-th entries of the four stacked
vectors. -/
def np22T (a b c d : CxQ) : Mat2 :=
  Mat2.mk a c b d

/-- The complex scale factor `-2j*np.pi/med_wavelen` applied to every
parsed element (tmatrix.py line 138, Mishchenko's convention). -/
def tmatScale (pi medWavelen : ℚ) : CxQ :=
  CxQ.mk 0 (-(2 * pi) / medWavelen)

/-- One row of `tmatrix_tmp.out` (8 columns: s11.r s11.i s12.r s12.i
s21.r s21.i s22.r s22.i) turned into the per-point matrix of
`np.array([[s[:,0], s[:,1]], [-s[:,2], -s[:,3]]]).transpose()` after
each complex value has been multiplied by the scale factor
(tmatrix.py lines 137–141).  Rows that do not yield exactly four
complex values would make the numpy slicing/broadcasting fail; the
fallback zero matrix is never reached on well-formed 8-column rows. -/
def tmatRowMatr (scale : CxQ) (row : List ℚ) : Mat2 :=
  match (combineRI row).map (fun z => scale * z) with
  | [s0, s1, s2, s3] => np22T s0 s1 (-s2) (-s3)
  | _ => Mat2.mk (CxQ.mk 0 0) (CxQ.mk 0 0) (CxQ.mk 0 0) (CxQ.mk 0 0)

/-- One row of ADDA's `ampl_scatgrid` (10 columns: theta phi s1.r s1.i
s2.r s2.i s3.r s3.i s4.r s4.i) turned into the per-point matrix of
`np.array([[s[:,1], s[:,2]], [s[:,3], s[:,0]]]).transpose()`
(dda.py lines 142–146): the two angle columns are dropped, the four
real/imaginary pairs are combined, and the four complex values are
stacked in the order s[1], s[2], s[3], s[0]. -/
def ddaRowMatr (row : List ℚ) : Mat2 :=
  match combineRI (row.drop 2) with
  | [c0, c1, c2, c3] => np22T c1 c2 c3 c0
  | _ => Mat2.mk (CxQ.mk 0 0) (CxQ.mk 0 0) (CxQ.mk 0 0) (CxQ.mk 0 0)

/-- The scale factor written as the code computes it equals `-i*k`
whenever `pi` is nonzero: `-2*pi/(2*pi/k) = -k` (at `k = 0` both sides
are zero by the rational division-by-zero convention). -/
theorem tmatScale_eq (pi k : ℚ) (hpi : pi ≠ 0) :
    tmatScale pi (2 * pi / k) = CxQ.mk 0 (-k) := by
  unfold tmatScale
  congr 1
  field_simp
  ring


/-- C1 (amended): every complex value parsed from the alternating
real/imaginary columns is multiplied by the scale factor
`-2πi/λ_medium = -i*k` (with `λ_medium = 2π/k`), and the sign flip is
applied to s21 and s22; but the numpy stack-and-transpose
`np.array([[s11, s12], [-s21, -s22]]).transpose()` reverses all three
axes, so the per-point 2×2 matrix is the transpose
`[[c*s11, -c*s21], [c*s12, -c*s22]]` of the claimed
`[[c*s11, c*s12], [-c*s21, -c*s22]]`. -/
theorem tmat_scale_and_assembly (pi k : ℚ) (hpi : pi ≠ 0)
    (a0 b0 a1 b1 a2 b2 a3 b3 : ℚ) :
    tmatRowMatr (tmatScale pi (2 * pi / k)) [a0, b0, a1, b1, a2, b2, a3, b3] =
      Mat2.mk (CxQ.mk 0 (-k) * CxQ.mk a0 b0) (-(CxQ.mk 0 (-k) * CxQ.mk a2 b2))
              (CxQ.mk 0 (-k) * CxQ.mk a1 b1) (-(CxQ.mk 0 (-k) * CxQ.mk a3 b3)) := by
  rw [tmatScale_eq pi k hpi]
  rfl

/-- Witness for `tmat_scale_and_assembly` at `pi = 3`, `k = 2` and the
output row s11 = 1, s12 = 2, s21 = 3, s22 = 4 (all real). -/
theorem tmat_scale_and_assembly_witness :
    (3 : ℚ) ≠ 0 ∧
    tmatRowMatr (tmatScale 3 (2 * 3 / 2)) [1, 0, 2, 0, 3, 0, 4, 0] =
      Mat2.mk (CxQ.mk 0 (-2) * CxQ.mk 1 0) (-(CxQ.mk 0 (-2) * CxQ.mk 3 0))
              (CxQ.mk 0 (-2) * CxQ.mk 2 0) (-(CxQ.mk 0 (-2) * CxQ.mk 4 0)) :=
  ⟨by norm_num, tmat_scale_and_assembly 3 2 (by norm_num) 1 0 2 0 3 0 4 0⟩

/-- C1 counterexample: with `pi = 3`, `k = 1` (so the scale factor is
`-i`) and the output row s11 = 1, s12 = 2, s21 = 3, s22 = 4, the
per-point matrix the code builds is not the claimed
`[[c*s11, c*s12], [-c*s21, -c*s22]]`: its (1,2) entry is `-c*s21 = 3i`
rather than `c*s12 = -2i`. -/
theorem tmat_assembly_counterexample :
    tmatRowMatr (tmatScale 3 (2 * 3 / 1)) [1, 0, 2, 0, 3, 0, 4, 0] ≠
      Mat2.mk (CxQ.mk 0 (-1) * CxQ.mk 1 0) (CxQ.mk 0 (-1) * CxQ.mk 2 0)
              (-(CxQ.mk 0 (-1) * CxQ.mk 3 0)) (-(CxQ.mk 0 (-1) * CxQ.mk 4 0)) := by
  have h : tmatRowMatr (tmatScale 3 (2 * 3 / 1)) [1, 0, 2, 0, 3, 0, 4, 0] =
      Mat2.mk (tmatScale 3 (2 * 3 / 1) * CxQ.mk 1 0) (-(tmatScale 3 (2 * 3 / 1) * CxQ.mk 3 0))
              (tmatScale 3 (2 * 3 / 1) * CxQ.mk 2 0) (-(tmatScale 3 (2 * 3 / 1) * CxQ.mk 4 0)) := rfl
  rw [h]
  simp only [tmatScale, CxQ.mul_def, CxQ.neg_def, ne_eq, Mat2.mk.injEq, CxQ.mk.injEq]
  norm_num

/-- C2 (amended): for an ADDA output row with angle columns `t`, `p`
and complex values s0 = a1+i·b1, s1 = a2+i·b2, s2 = a3+i·b3,
s3 = a4+i·b4 read from the four interleaved column pairs, the per-point
matrix has (1,1) = s1 and (2,2) = s0 as claimed, but the numpy
stack-and-transpose puts s3 at (1,2) and s2 at (2,1) — the transpose of
the claimed off-diagonal placement. -/
theorem dda_assembly (t p a1 b1 a2 b2 a3 b3 a4 b4 : ℚ) :
    ddaRowMatr [t, p, a1, b1, a2, b2, a3, b3, a4, b4] =
      Mat2.mk (CxQ.mk a2 b2) (CxQ.mk a4 b4) (CxQ.mk a3 b3) (CxQ.mk a1 b1) := rfl

/-- C2 counterexample: for the row with angles (10, 20) and s0 = 1,
s1 = 2, s2 = 3, s3 = 4 (all real), the code's per-point matrix is not
the claimed `[[s1, s2], [s3, s0]]`: its (1,2) entry is s3 = 4, not
s2 = 3. -/
theorem dda_assembly_counterexample :
    ddaRowMatr [10, 20, 1, 0, 2, 0, 3, 0, 4, 0] ≠
      Mat2.mk (CxQ.mk 2 0) (CxQ.mk 3 0) (CxQ.mk 4 0) (CxQ.mk 1 0) := by
  have h : ddaRowMatr [10, 20, 1, 0, 2, 0, 3, 0, 4, 0] =
      Mat2.mk (CxQ.mk 2 0) (CxQ.mk 4 0) (CxQ.mk 3 0) (CxQ.mk 1 0) := rfl
  rw [h]
  simp only [ne_eq, Mat2.mk.injEq, CxQ.mk.injEq]
  norm_num


/-- External state the T-matrix run depends on: whether the staged
executable `tmatrix_f/S.exe` exists (so `shutil.copy` succeeds),
whether `./S.exe` exits with status 0, and the contents of
`tmatrix_tmp.out` after the run (`none` when the file was not
produced, so `glob` matches nothing).  The output file name is fixed,
so at most one `glob` match can occur. -/
structure TmatEnv where
  exeExists : Bool
  solverOk : Bool
  outFile : Option (List (List ℚ))
  deriving DecidableEq

/-- External state the DDA run depends on: whether `adda -V` succeeds
(the `__init__` check), whether the main `adda` invocation exits with
status 0, and the list of `run000*` directory contents in `glob`
order, each the rows of its `ampl_scatgrid` file after the one
skipped header row. -/
structure DdaEnv where
  addaOk : Bool
  addaRunOk : Bool
  runDirs : List (List (List ℚ))
  deriving DecidableEq

/-- Whether a computation result is a normal return (no exception). -/
def resultOk : Except PyErr (List Mat2) → Bool
  | Except.ok _ => true
  | Except.error _ => false

/-- Length of the returned scattering-matrix sequence, `none` when an
exception escaped. -/
def resultLen : Except PyErr (List Mat2) → Option ℕ
  | Except.ok ms => some ms.length
  | Except.error _ => none

namespace Tmatrix

/-- `Tmatrix._raw_scat_matrs` (tmatrix.py lines 73–148) as a trace of
filesystem/subprocess effects paired with its outcome.  Effect order
follows the source: `tempfile.mkdtemp()`; `shutil.copy` of `S.exe`
into the temp dir (raising an IO error there if the executable is
absent — there is no dependency check in this class); `os.chdir` into
the temp dir; open `tmatrix_tmp.inp`; for an incompatible scatterer
close the file, `shutil.rmtree` the temp dir and raise
`TheoryNotCompatibleError` (without restoring the working directory);
otherwise write the payload (`tmatInputLines`), close, run `./S.exe`
(`subprocess.check_call`, raising on non-zero exit with no cleanup),
take `glob(...)[0]` of the fixed output name (IndexError when absent,
again with no cleanup), `np.loadtxt`, scale and assemble each row
(`tmatRowMatr` with `tmatScale`), chdir back, and `rmtree` only when
`self.delete` is set. -/
def raw_scat_matrs (delete : Bool) (sc : Scatterer) (pos : List Point)
    (k nmed pi : ℚ) (env : TmatEnv) :
    List FsEvent × Except PyErr (List Mat2) :=
  if env.exeExists = false then
    ([FsEvent.mkdtemp], Except.error PyErr.fileNotFound)
  else
    match tmatInputLines sc pos k nmed pi with
    | none =>
        ([FsEvent.mkdtemp, FsEvent.copyExe, FsEvent.chdirTemp, FsEvent.openInp,
          FsEvent.closeInp, FsEvent.rmtree],
         Except.error PyErr.theoryNotCompatible)
    | some _ =>
        if env.solverOk = false then
          ([FsEvent.mkdtemp, FsEvent.copyExe, FsEvent.chdirTemp, FsEvent.openInp,
            FsEvent.closeInp, FsEvent.runSolver],
           Except.error PyErr.calledProcessError)
        else
          match env.outFile with
          | none =>
              ([FsEvent.mkdtemp, FsEvent.copyExe, FsEvent.chdirTemp, FsEvent.openInp,
                FsEvent.closeInp, FsEvent.runSolver, FsEvent.globOut],
               Except.error PyErr.indexError)
          | some rows =>
              ([FsEvent.mkdtemp, FsEvent.copyExe, FsEvent.chdirTemp, FsEvent.openInp,
                FsEvent.closeInp, FsEvent.runSolver, FsEvent.globOut, FsEvent.loadResult,
                FsEvent.chdirBack] ++ (if delete then [FsEvent.rmtree] else []),
               Except.ok (rows.map (tmatRowMatr (tmatScale pi (2 * pi / k)))))

end Tmatrix

namespace DDA

/-- `DDA.__init__` (dda.py lines 74–81): runs `adda -V` via
`subprocess.check_output`; on `CalledProcessError` or `OSError` raises
`DependencyMissing('adda')`.  No temporary directory is touched
here. -/
def init_check (env : DdaEnv) : List FsEvent × Except PyErr Unit :=
  ([FsEvent.checkAddaVersion],
   if env.addaOk then Except.ok () else Except.error (PyErr.dependencyMissing "adda"))

/-- `DDA.calc_holo` (dda.py lines 99–160) as a trace of effects paired
with the assembled per-point scattering matrices.  The sampling grid
(`self._spherical_grid`, an external base-class collaborator) is
passed in as the `theta`/`phi` lists; the final per-pixel hologram
formation (`mieangfuncs.paraxholocl`, external Fortran) consumes the
matrices returned here and is elided, as is everything after the
unconditional `return` on line 160.  Effect order follows the source:
`tempfile.mkdtemp()`; write `scat_params.dat`
(`_write_adda_angles_file`, open then close); `subprocess.check_call`
of `adda` with `-lambda`/`-eq_rad`/`-m` arguments (raising on non-zero
exit); `glob('run000*')[0]` — IndexError when no run directory
matches, and silently the first match in glob order otherwise;
`np.loadtxt` of its `ampl_scatgrid` with one skipped header row; row
assembly (`ddaRowMatr`).  The `shutil.rmtree(temp_dir)` on line 150 is
commented out in the source and replaced by `print(temp_dir)`, so no
path of this function ever removes the temporary directory. -/
def calc_holo (theta phi : List ℚ) (r : ℚ) (n : CxQ) (medWavelen index : ℚ)
    (env : DdaEnv) : List FsEvent × Except PyErr (List Mat2) :=
  if env.addaRunOk = false then
    ([FsEvent.mkdtemp, FsEvent.openInp, FsEvent.closeInp, FsEvent.runSolver],
     Except.error PyErr.calledProcessError)
  else
    match env.runDirs with
    | [] =>
        ([FsEvent.mkdtemp, FsEvent.openInp, FsEvent.closeInp, FsEvent.runSolver,
          FsEvent.globOut],
         Except.error PyErr.indexError)
    | rows :: _ =>
        ([FsEvent.mkdtemp, FsEvent.openInp, FsEvent.closeInp, FsEvent.runSolver,
          FsEvent.globOut, FsEvent.loadResult, FsEvent.printTempDir],
         Except.ok (rows.map ddaRowMatr))

end DDA


/-- C5 evaluated at the failing input (code bug): for an Axisymmetric
scatterer with shape tag −3 (neither −1 nor −2) the encoder does not
raise; it writes a payload of only 9 lines containing no
equivalent-radius (`pow`) line at all — the first line is the medium
wavelength — and the solver is still invoked, completing normally.
The claim (and spec §3/§8) requires a hard error at encode time,
before any subprocess call. -/
theorem tmat_unrecognized_shape_runs_solver :
    (tmatInputLines (Scatterer.axisymmetric 1 2 (CxQ.mk (3 / 2) 0) 0 0 (-3))
        [Point.mk 100 1 2] 1 (4 / 3) 3).map
      (List.countP fun l => match l with | InpVal.pow _ _ => true | _ => false) = some 0 ∧
    (tmatInputLines (Scatterer.axisymmetric 1 2 (CxQ.mk (3 / 2) 0) 0 0 (-3))
        [Point.mk 100 1 2] 1 (4 / 3) 3).map List.length = some 9 ∧
    (Tmatrix.raw_scat_matrs true (Scatterer.axisymmetric 1 2 (CxQ.mk (3 / 2) 0) 0 0 (-3))
        [Point.mk 100 1 2] 1 (4 / 3) 3
        (TmatEnv.mk true true (some [[1, 0, 2, 0, 3, 0, 4, 0]]))).2 =
      Except.ok ([[1, 0, 2, 0, 3, 0, 4, 0]].map (tmatRowMatr (tmatScale 3 (2 * 3 / 1)))) ∧
    FsEvent.runSolver ∈
      (Tmatrix.raw_scat_matrs true (Scatterer.axisymmetric 1 2 (CxQ.mk (3 / 2) 0) 0 0 (-3))
        [Point.mk 100 1 2] 1 (4 / 3) 3
        (TmatEnv.mk true true (some [[1, 0, 2, 0, 3, 0, 4, 0]]))).1 := by
  refine ⟨rfl, rfl, rfl, ?_⟩
  decide

/-- C6 (amended): for a scatterer that is neither a Sphere nor an
Axisymmetric, `_raw_scat_matrs` raises `TheoryNotCompatibleError`
before any solver invocation; but a temporary directory is created
first, the executable is copied into it, and the input file is opened
there — all of which happens before the error, and the directory with
its partially-written file is removed (`shutil.rmtree`) before the
error propagates. -/
theorem tmat_incompatible_staged_then_cleaned (d : Bool) (pos : List Point)
    (k nmed pi : ℚ) (so : Bool) (out : Option (List (List ℚ))) :
    Tmatrix.raw_scat_matrs d Scatterer.other pos k nmed pi (TmatEnv.mk true so out) =
      ([FsEvent.mkdtemp, FsEvent.copyExe, FsEvent.chdirTemp, FsEvent.openInp,
        FsEvent.closeInp, FsEvent.rmtree],
       Except.error PyErr.theoryNotCompatible) := rfl

/-- C6 counterexample: at a concrete incompatible scatterer the error
is indeed `TheoryNotCompatibleError`, but the trace contains the
temp-directory creation (and executable staging and file open) before
it — contradicting "without creating any temporary directory / before
any file I/O". -/
theorem tmat_incompatible_counterexample :
    (Tmatrix.raw_scat_matrs true Scatterer.other [] 1 1 3 (TmatEnv.mk true true none)).2 =
      Except.error PyErr.theoryNotCompatible ∧
    FsEvent.mkdtemp ∈
      (Tmatrix.raw_scat_matrs true Scatterer.other [] 1 1 3 (TmatEnv.mk true true none)).1 ∧
    FsEvent.openInp ∈
      (Tmatrix.raw_scat_matrs true Scatterer.other [] 1 1 3 (TmatEnv.mk true true none)).1 := by
  refine ⟨rfl, ?_, ?_⟩ <;> decide


/-- C7 (amended): the T-matrix path removes its temporary directory on
the success path exactly when the `delete` flag is set, and on the
incompatible-scatterer error path; it does NOT remove it on the
solver-failure or missing-result error paths even when `delete` is
set; and the DDA path never removes its temporary directory on any
path — the `shutil.rmtree` in `calc_holo` is commented out (a
`print(temp_dir)` stands in its place), including on success. -/
theorem temp_dir_release_actual (r : ℚ) (n : CxQ) (pos : List Point)
    (k nmed pi : ℚ) (rows : List (List ℚ)) (out : Option (List (List ℚ)))
    (th ph : List ℚ) (r2 lam idx : ℚ) (n2 : CxQ) (env : DdaEnv)
    (d : Bool) (so : Bool) (o : Option (List (List ℚ))) :
    (Tmatrix.raw_scat_matrs true (Scatterer.sphere r n) pos k nmed pi
        (TmatEnv.mk true true (some rows))).1.getLast? = some FsEvent.rmtree ∧
    FsEvent.rmtree ∉ (Tmatrix.raw_scat_matrs false (Scatterer.sphere r n) pos k nmed pi
        (TmatEnv.mk true true (some rows))).1 ∧
    (Tmatrix.raw_scat_matrs true (Scatterer.sphere r n) pos k nmed pi
        (TmatEnv.mk true false out)).2 = Except.error PyErr.calledProcessError ∧
    FsEvent.rmtree ∉ (Tmatrix.raw_scat_matrs true (Scatterer.sphere r n) pos k nmed pi
        (TmatEnv.mk true false out)).1 ∧
    (Tmatrix.raw_scat_matrs true (Scatterer.sphere r n) pos k nmed pi
        (TmatEnv.mk true true none)).2 = Except.error PyErr.indexError ∧
    FsEvent.rmtree ∉ (Tmatrix.raw_scat_matrs true (Scatterer.sphere r n) pos k nmed pi
        (TmatEnv.mk true true none)).1 ∧
    FsEvent.rmtree ∈ (Tmatrix.raw_scat_matrs d Scatterer.other pos k nmed pi
        (TmatEnv.mk true so o)).1 ∧
    FsEvent.rmtree ∉ (DDA.calc_holo th ph r2 n2 lam idx env).1 := by
  refine ⟨rfl, ?_, rfl, ?_, rfl, ?_, ?_, ?_⟩
  · simp [Tmatrix.raw_scat_matrs, tmatInputLines]
  · simp [Tmatrix.raw_scat_matrs, tmatInputLines]
  · simp [Tmatrix.raw_scat_matrs, tmatInputLines]
  · simp [Tmatrix.raw_scat_matrs, tmatInputLines]
  · rcases env with ⟨a, rOk, dirs⟩
    cases rOk <;> cases dirs <;> simp [DDA.calc_holo]

/-- C7 counterexample: a successful DDA computation with the default
configuration returns normally but its trace contains no directory
removal, refuting "the DDA path also removes its temp directory on
success". -/
theorem temp_dir_release_counterexample :
    resultOk (DDA.calc_holo [1] [2] (1 / 2) (CxQ.mk (3 / 2) 0) (2 / 3) (4 / 3)
        (DdaEnv.mk true true [[[10, 20, 1, 0, 2, 0, 3, 0, 4, 0]]])).2 = true ∧
    FsEvent.rmtree ∉ (DDA.calc_holo [1] [2] (1 / 2) (CxQ.mk (3 / 2) 0) (2 / 3) (4 / 3)
        (DdaEnv.mk true true [[[10, 20, 1, 0, 2, 0, 3, 0, 4, 0]]])).1 := by
  exact ⟨rfl, by decide⟩

/-- C8 (amended): no row-count validation exists — there is no
`ResultShapeMismatch` in the repository.  The returned sequence always
has exactly as many matrices as the solver output has rows, for both
paths; in particular when the output has N rows for N requested points
the result has length N, but a mismatched row count is silently
propagated instead of raising. -/
theorem parsed_length_follows_output (r : ℚ) (n : CxQ) (pos : List Point)
    (k nmed pi : ℚ) (rows : List (List ℚ))
    (th ph : List ℚ) (r2 lam idx : ℚ) (n2 : CxQ) (a : Bool)
    (drows : List (List ℚ)) (dirs : List (List (List ℚ))) :
    resultLen (Tmatrix.raw_scat_matrs true (Scatterer.sphere r n) pos k nmed pi
        (TmatEnv.mk true true (some rows))).2 = some rows.length ∧
    resultLen (DDA.calc_holo th ph r2 n2 lam idx
        (DdaEnv.mk a true (drows :: dirs))).2 = some drows.length := by
  constructor <;>
    simp [resultLen, Tmatrix.raw_scat_matrs, DDA.calc_holo, tmatInputLines]

/-- C8 counterexample: three sampling points are requested but the
solver output has only two rows; the computation returns normally
with a length-2 result instead of raising any shape-mismatch error. -/
theorem row_count_mismatch_counterexample :
    resultOk (Tmatrix.raw_scat_matrs true (Scatterer.sphere 1 (CxQ.mk (3 / 2) 0))
        [Point.mk 100 1 2, Point.mk 100 1 3, Point.mk 100 2 3] 1 (4 / 3) 3
        (TmatEnv.mk true true
          (some [[1, 0, 2, 0, 3, 0, 4, 0], [5, 0, 6, 0, 7, 0, 8, 0]]))).2 = true ∧
    resultLen (Tmatrix.raw_scat_matrs true (Scatterer.sphere 1 (CxQ.mk (3 / 2) 0))
        [Point.mk 100 1 2, Point.mk 100 1 3, Point.mk 100 2 3] 1 (4 / 3) 3
        (TmatEnv.mk true true
          (some [[1, 0, 2, 0, 3, 0, 4, 0], [5, 0, 6, 0, 7, 0, 8, 0]]))).2 = some 2 := by
  exact ⟨rfl, rfl⟩

/-- C9 (amended): when the result artifact is missing, the code raises
a bare IndexError (from `glob(...)[0]` on an empty list), not a
`ResultNotFoundError` (which does not exist in the repository); and
when more than one DDA `run000*` directory matches, the first match in
glob order is used silently rather than treated as an error.  The
T-matrix output file name is fixed, so it can match at most once. -/
theorem result_artifact_resolution (th ph : List ℚ) (r2 lam idx : ℚ) (n2 : CxQ)
    (a : Bool) (A : List (List ℚ)) (rest : List (List (List ℚ)))
    (d : Bool) (r : ℚ) (n : CxQ) (pos : List Point) (k nmed pi : ℚ) :
    (DDA.calc_holo th ph r2 n2 lam idx (DdaEnv.mk a true [])).2 =
      Except.error PyErr.indexError ∧
    (DDA.calc_holo th ph r2 n2 lam idx (DdaEnv.mk a true (A :: rest))).2 =
      Except.ok (A.map ddaRowMatr) ∧
    (Tmatrix.raw_scat_matrs d (Scatterer.sphere r n) pos k nmed pi
        (TmatEnv.mk true true none)).2 = Except.error PyErr.indexError := by
  exact ⟨rfl, rfl, rfl⟩

/-- C9 counterexample: with two matching `run000*` directories the DDA
path does not raise any error — it silently resolves the ambiguity by
using the first directory's contents. -/
theorem ambiguous_run_dirs_counterexample :
    (DDA.calc_holo [1] [2] (1 / 2) (CxQ.mk (3 / 2) 0) (2 / 3) (4 / 3)
        (DdaEnv.mk true true
          [[[10, 20, 1, 0, 2, 0, 3, 0, 4, 0]],
           [[10, 20, 5, 0, 6, 0, 7, 0, 8, 0]]])).2 =
      Except.ok ([[10, 20, 1, 0, 2, 0, 3, 0, 4, 0]].map ddaRowMatr) := rfl

/-- C10 (amended): the DDA path checks for `adda` at construction time
and raises `DependencyMissing` naming the dependency, with no
temporary directory touched; the T-matrix path performs no dependency
check at all — a missing `S.exe` surfaces as a plain file-copy IO
error, and only after the temporary directory has already been
created. -/
theorem dependency_check_actual (b : Bool) (dirs : List (List (List ℚ)))
    (d : Bool) (sc : Scatterer) (pos : List Point) (k nmed pi : ℚ)
    (so : Bool) (out : Option (List (List ℚ))) :
    DDA.init_check (DdaEnv.mk false b dirs) =
      ([FsEvent.checkAddaVersion], Except.error (PyErr.dependencyMissing "adda")) ∧
    FsEvent.mkdtemp ∉ (DDA.init_check (DdaEnv.mk false b dirs)).1 ∧
    Tmatrix.raw_scat_matrs d sc pos k nmed pi (TmatEnv.mk false so out) =
      ([FsEvent.mkdtemp], Except.error PyErr.fileNotFound) := by
  refine ⟨rfl, ?_, rfl⟩
  simp [DDA.init_check]

/-- C10 counterexample: on the T-matrix path with the solver executable
absent, the temporary directory is created first and the failure is a
file-copy IO error, not a `DependencyMissing` error — refuting the
claim for the T-matrix half. -/
theorem tmat_missing_exe_counterexample :
    Tmatrix.raw_scat_matrs true (Scatterer.sphere (1 / 2) (CxQ.mk (3 / 2) 0))
        [Point.mk 100 1 2] 1 (4 / 3) 3 (TmatEnv.mk false true none) =
      ([FsEvent.mkdtemp], Except.error PyErr.fileNotFound) := rfl

